import Mathlib

/-!
Shallow embedding of `src/commit.rs` and the `verify` dispatch of
`src/bin/cog.rs` from the cocogitto repository, together with theorems
settling the specification claims about the commit parser, the commit
type taxonomy, and the display ordering.

Strings are modelled at the character level (`List Char`); Rust byte
slicing on ASCII inputs coincides with character slicing, and UTF-8
byte order coincides with code-point order, so the embedding is faithful
on the inputs the claims range over.

Rust panics (`panic!`, index out of bounds, usize underflow in
`scope.len() - 1`) abort the process; they are made explicit as the
`Panic` error type of an `Except`, so that "the code aborts here" is a
provable statement.
-/

/-- The runtime aborts of `Commit::from_git_commit` and
`CommitType::from` in `src/commit.rs`: `indexOutOfBounds` is the
`split[1]` indexing panic (line 32), `sliceUnderflow` is the
`scope[0..scope.len() - 1]` slice on an empty segment (line 41, usize
underflow / out-of-bounds slice), and `unknownCommitType` is the
explicit `panic!("unknown commit type {}")` (line 106). -/
inductive Panic where
  | indexOutOfBounds : Panic
  | sliceUnderflow : Panic
  | unknownCommitType : String → Panic
deriving DecidableEq, Repr

/-- The `CommitType` enum of `src/commit.rs` (lines 57-71). The borrowed
`&'a str` payloads of `Custom` are embedded as `String`. -/
inductive CommitType where
  | Feature : CommitType
  | BugFix : CommitType
  | Chore : CommitType
  | Revert : CommitType
  | Performances : CommitType
  | Documentation : CommitType
  | Style : CommitType
  | Refactoring : CommitType
  | Test : CommitType
  | Build : CommitType
  | Ci : CommitType
  | Custom : String → String → CommitType
deriving DecidableEq, Repr

/-- The `Commit` struct of `src/commit.rs` (lines 7-14). -/
structure Commit where
  shorthand : String
  commit_type : CommitType
  scope : Option String
  description : String
  author : String
deriving DecidableEq, Repr

/-- `CommitType::get_markdown_title` (`src/commit.rs` lines 74-89). -/
def CommitType.get_markdown_title : CommitType → String
  | .Feature => "Feature"
  | .BugFix => "Bug Fixes"
  | .Chore => "Miscellaneous Chores"
  | .Revert => "Revert"
  | .Performances => "Performance Improvements"
  | .Documentation => "Documentation"
  | .Style => "Style"
  | .Refactoring => "Refactoring"
  | .Test => "Tests"
  | .Build => "Build System"
  | .Ci => "Continuous Integration"
  | .Custom _ value => value

/-- `impl From<&str> for CommitType` (`src/commit.rs` lines 92-109): a
sequential match on the eleven closed-set keys; every other key reaches
`panic!("unknown commit type {}", commit_type)`, embedded as the
`unknownCommitType` abort. -/
def commitTypeFrom (commit_type : String) : Except Panic CommitType :=
  if commit_type = "feat" then .ok .Feature
  else if commit_type = "fix" then .ok .BugFix
  else if commit_type = "chore" then .ok .Chore
  else if commit_type = "revert" then .ok .Revert
  else if commit_type = "perf" then .ok .Performances
  else if commit_type = "docs" then .ok .Documentation
  else if commit_type = "style" then .ok .Style
  else if commit_type = "refactor" then .ok .Refactoring
  else if commit_type = "test" then .ok .Test
  else if commit_type = "build" then .ok .Build
  else if commit_type = "ci" then .ok .Ci
  else .error (.unknownCommitType commit_type)

/-- The eleven closed-set commit type keys, in the order of the `match`
arms of `From<&str> for CommitType`. -/
def closedKeys : List String :=
  ["feat", "fix", "chore", "revert", "perf", "docs", "style", "refactor",
   "test", "build", "ci"]

/-- Fuel-driven worker for `splitOnStr`: scans the character list left to
right, emitting a segment at every non-overlapping occurrence of `sep`,
exactly as Rust's `str::split` with a non-empty substring pattern. The
fuel is an upper bound on the scanned length; with fuel
`s.length + 1` the zero-fuel fallback is never reached. -/
def splitFuel (sep : List Char) : Nat → List Char → List Char → List (List Char)
  | 0, s, acc => [acc.reverse ++ s]
  | _ + 1, [], acc => [acc.reverse]
  | n + 1, c :: rest, acc =>
    if sep.isPrefixOf (c :: rest) then
      acc.reverse :: splitFuel sep n (List.drop (sep.length - 1) rest) []
    else
      splitFuel sep n rest (c :: acc)

/-- Rust `message.split(sep).collect::<Vec<&str>>()` for a non-empty
substring separator: every maximal list of segments between
non-overlapping left-to-right occurrences of `sep`. -/
def splitOnStr (sep s : String) : List String :=
  (splitFuel sep.data (s.data.length + 1) s.data []).map (fun l => ⟨l⟩)

/-- Rust `description.replace('\n', "")`: delete every newline. -/
def removeNewlines (s : String) : String :=
  ⟨s.data.filter (fun c => c ≠ '\n')⟩

/-- Rust `scope[0..scope.len() - 1]` on a non-empty string: drop the last
character. -/
def strDropLast (s : String) : String :=
  ⟨s.data.dropLast⟩

/-- `Commit::from_git_commit` (`src/commit.rs` lines 26-50). The three
strings extracted from the `git2::Commit` (short id, author name, raw
message) are the inputs; the `print!` logging is I/O and not modelled.
Evaluation order follows the source: `split[1]` is indexed first
(abort `indexOutOfBounds` when the separator is absent), then
`CommitType::from(left_part[0])` (abort `unknownCommitType`), then the
scope slice `scope[0..scope.len() - 1]` (abort `sliceUnderflow` on an
empty segment). -/
def Commit.from_git_commit (shorthand author message : String) :
    Except Panic Commit :=
  match splitOnStr ": " message with
  | first :: descRaw :: _ =>
    let description := removeNewlines descRaw
    let left_part := splitOnStr "(" first
    match commitTypeFrom (left_part.headD "") with
    | .error p => .error p
    | .ok commit_type =>
      match left_part[1]? with
      | none => .ok ⟨shorthand, commit_type, none, description, author⟩
      | some sc =>
        if sc.length = 0 then .error .sliceUnderflow
        else .ok ⟨shorthand, commit_type, some (strDropLast sc), description, author⟩
  | _ => .error .indexOutOfBounds

/-- Rust `Ord` on `Option<String>`: `None` sorts before `Some`, and two
`Some`s compare their strings lexicographically by code point (equal to
UTF-8 byte order). -/
def charListCmp : List Char → List Char → Ordering
  | [], [] => .eq
  | [], _ :: _ => .lt
  | _ :: _, [] => .gt
  | a :: as, b :: bs =>
    if a < b then .lt else if b < a then .gt else charListCmp as bs

def stringCmp (a b : String) : Ordering :=
  charListCmp a.data b.data

def optScopeCmp : Option String → Option String → Ordering
  | none, none => .eq
  | none, some _ => .lt
  | some _, none => .gt
  | some a, some b => stringCmp a b

/-- `impl Ord for Commit` (`src/commit.rs` lines 117-121):
`self.scope.cmp(&other.scope)`. The `PartialOrd` impl (lines 111-115) is
the same comparison wrapped in `Some`. -/
def Commit.cmp (self other : Commit) : Ordering :=
  optScopeCmp self.scope other.scope

/-- The `ParseError` enumeration named by the spec (§7); the parser under
`src/` never produces these (it aborts instead), but the spec-modelled
`verify` below does. -/
inductive ParseError where
  | MalformedHeader : ParseError
  | UnknownType : String → ParseError
  | EmptyDescription : ParseError
deriving DecidableEq, Repr

/-- Whitespace trimming at both ends, for the spec's "description is
empty after trimming". -/
def strTrim (s : String) : String :=
  ⟨((s.data.dropWhile Char.isWhitespace).reverse.dropWhile Char.isWhitespace).reverse⟩

/-- Whether the header segment carries the spec's trailing `!` breaking
marker (immediately before the `": "`). -/
def endsWithBang (s : String) : Bool :=
  match s.data.getLast? with
  | some c => c = '!'
  | none => false

/-- Modelled from the spec: `CocoGitto::verify` lives in the library
crate root, which is not under `src/`; only its caller in
`src/bin/cog.rs` is. Per the spec (§4.1, §4.2): the header before the
first `": "` is `type(scope)` with an optional trailing `!`; a missing
`": "` separator, or a description empty after trimming, fails with
`MalformedHeader`; the type key (the part of the header before the
first `"("`, after stripping the `!`) must be one of the eleven
closed-set keys — no custom-type configuration is supplied here — else
`UnknownType(key)`. A conforming message yields `Ok(())`. -/
def verify (message : String) : Except ParseError Unit :=
  match splitOnStr ": " message with
  | header :: d :: rest =>
    let description := String.intercalate ": " (d :: rest)
    if strTrim description = "" then .error .MalformedHeader
    else
      let stripped := if endsWithBang header then strDropLast header else header
      let key := (splitOnStr "(" stripped).headD ""
      if key ∈ closedKeys then .ok () else .error (.UnknownType key)
  | _ => .error .MalformedHeader

/-- The `VERIFY` arm of `main` in `src/bin/cog.rs` (lines 219-230):
`exit(0)` when `verify` returns `Ok(())`; `eprintln!` the error and
`exit(1)` when it fails. The result is the process exit code paired with
the error printed to stderr (`none` when nothing is printed). -/
def verifyRun (message : String) : Nat × Option ParseError :=
  match verify message with
  | .ok _ => (0, none)
  | .error err => (1, some err)

theorem charListCmp_self : (l : List Char) → charListCmp l l = .eq
  | [] => rfl
  | a :: as => by
    simp only [charListCmp, lt_irrefl, if_false]
    exact charListCmp_self as

theorem optScopeCmp_self (o : Option String) : optScopeCmp o o = .eq := by
  cases o with
  | none => rfl
  | some s => exact charListCmp_self s.data

/-- C1 counterexample: classifying the unknown key "wip" does not produce
a recoverable parse error — it reaches the `panic!("unknown commit type
{}")` arm and aborts the process, refuting "classification/parsing fails
with a parse error ... and never panics or aborts the process". -/
theorem classify_wip_aborts :
    commitTypeFrom "wip" = .error (.unknownCommitType "wip") := rfl

/-- C1 (amended): for every type key outside the eleven closed-set keys,
`CommitType::from` aborts the process with the
`unknown commit type` panic; there is no custom-type configuration and
no `ParseError` value. -/
theorem classify_unknown_key_aborts (key : String) (h : key ∉ closedKeys) :
    commitTypeFrom key = .error (.unknownCommitType key) := by
  simp only [closedKeys, List.mem_cons, List.mem_singleton, not_or] at h
  obtain ⟨h1, h2, h3, h4, h5, h6, h7, h8, h9, h10, h11⟩ := h
  simp [commitTypeFrom, h1, h2, h3, h4, h5, h6, h7, h8, h9, h10, h11]

/-- C1 witness: the amended theorem applied at the concrete key "docz". -/
theorem classify_unknown_key_aborts_witness :
    "docz" ∉ closedKeys ∧
      commitTypeFrom "docz" = .error (.unknownCommitType "docz") :=
  ⟨by decide, classify_unknown_key_aborts "docz" (by decide)⟩

/-- C2 counterexample: parsing "update stuff" (no ": " separator) does
not fail with `MalformedHeader` — the `split[1]` indexing panics and the
process aborts, refuting "parsing is total, returning Ok or a specific
ParseError for every input, never an unrecoverable abort". -/
theorem parse_update_stuff_aborts :
    Commit.from_git_commit "s" "a" "update stuff" = .error .indexOutOfBounds := rfl

/-- C2 (amended): for every raw message in which the separator ": " does
not occur (the split yields at most one segment), `from_git_commit`
aborts with the `split[1]` index-out-of-bounds panic; no
`ParseError::MalformedHeader` exists in the code. -/
theorem parse_no_separator_aborts (sh au m : String)
    (h : (splitOnStr ": " m).length ≤ 1) :
    Commit.from_git_commit sh au m = .error .indexOutOfBounds := by
  unfold Commit.from_git_commit
  cases hs : splitOnStr ": " m with
  | nil => rfl
  | cons a t =>
    cases t with
    | nil => rfl
    | cons b t' => rw [hs] at h; simp at h

/-- C2 witness: the amended theorem applied at "update stuff". -/
theorem parse_no_separator_aborts_witness :
    (splitOnStr ": " "update stuff").length ≤ 1 ∧
      Commit.from_git_commit "x" "y" "update stuff" = .error .indexOutOfBounds :=
  ⟨by decide, parse_no_separator_aborts "x" "y" "update stuff" (by decide)⟩

/-- C3 counterexample: parsing "fix!: drop legacy endpoint" does not
succeed with `breaking = true` — the header prefix "fix!" is fed to
`CommitType::from`, which recognizes no `!` marker and panics; moreover
the `Commit` struct has no `breaking` field at all. -/
theorem parse_fix_bang_aborts_concrete :
    Commit.from_git_commit "s" "a" "fix!: drop legacy endpoint" =
      .error (.unknownCommitType "fix!") := rfl

/-- C3 (amended): for any short id and author, parsing
"fix!: drop legacy endpoint" aborts with the unknown-commit-type panic
on the key "fix!"; the `!` breaking marker is not handled and the parsed
record carries no breaking flag. -/
theorem parse_fix_bang_aborts (sh au : String) :
    Commit.from_git_commit sh au "fix!: drop legacy endpoint" =
      .error (.unknownCommitType "fix!") := rfl

/-- C4 counterexample: for "feat: see: here" the parsed description is
"see" — the text between the first and second occurrence of ": " — not
"see: here", the entire text after the first occurrence as claimed. -/
theorem description_drops_text_after_second_separator :
    (Commit.from_git_commit "s" "a" "feat: see: here").map Commit.description =
      .ok "see" ∧ ("see" : String) ≠ "see: here" :=
  ⟨rfl, by decide⟩

/-- C4 (amended): for every raw message containing ": ", the parsed
description is the second field of splitting the whole message on every
occurrence of ": " — the segment strictly between the first and second
occurrence (or the tail after the first when there is no second) — with
newlines removed; text after a second separator is dropped. -/
theorem description_is_second_split_field (sh au m header descRaw : String)
    (rest : List String) (c : Commit)
    (hs : splitOnStr ": " m = header :: descRaw :: rest)
    (hok : Commit.from_git_commit sh au m = .ok c) :
    c.description = removeNewlines descRaw := by
  unfold Commit.from_git_commit at hok
  rw [hs] at hok
  dsimp only at hok
  split at hok
  · exact absurd hok (by simp)
  · split at hok
    · cases hok; rfl
    · split at hok
      · exact absurd hok (by simp)
      · cases hok; rfl

/-- C4 witness: the amended theorem applied at "feat: see: here". -/
theorem description_is_second_split_field_witness :
    (⟨"s2", CommitType.Feature, none, "see", "a2"⟩ : Commit).description =
      removeNewlines "see" :=
  description_is_second_split_field "s2" "a2" "feat: see: here" "feat" "see"
    ["here"] ⟨"s2", CommitType.Feature, none, "see", "a2"⟩ rfl rfl

/-- C5 counterexample: the message "feat(): " parses successfully to a
commit whose description is empty and whose scope is `Some ""` — both
parts of the claimed invariant fail on a constructed `Commit`. -/
theorem parser_builds_empty_description_and_scope :
    (Commit.from_git_commit "s" "a" "feat(): ").map
        (fun c => (c.description, c.scope)) = .ok ("", some "") := rfl

/-- C5 (amended): the parser validates nothing after splitting: a
successfully constructed `Commit` may have an empty description and an
empty `Some` scope, as "feat(): " shows for any short id and author. -/
theorem parser_accepts_empty_description_and_scope (sh au : String) :
    Commit.from_git_commit sh au "feat(): " =
      .ok ⟨sh, .Feature, some "", "", au⟩ := rfl

/-- C6: parsing "feat(database): add postgresql driver" yields
`commit_type = Feature`, `scope = Some "database"`, and
`description = "add postgresql driver"`, for any short id and author
read from the repository. -/
theorem parse_feat_database_example (sh au : String) :
    Commit.from_git_commit sh au "feat(database): add postgresql driver" =
      .ok ⟨sh, .Feature, some "database", "add postgresql driver", au⟩ := rfl

/-- C7: classifying each of the eleven closed-set keys and taking the
changelog title yields that variant's canonical section title, and for
`Custom(key, title)` the title is the carried title. -/
theorem closed_set_titles :
    ((commitTypeFrom "feat").map CommitType.get_markdown_title = .ok "Feature" ∧
     (commitTypeFrom "fix").map CommitType.get_markdown_title = .ok "Bug Fixes" ∧
     (commitTypeFrom "chore").map CommitType.get_markdown_title = .ok "Miscellaneous Chores" ∧
     (commitTypeFrom "revert").map CommitType.get_markdown_title = .ok "Revert" ∧
     (commitTypeFrom "perf").map CommitType.get_markdown_title = .ok "Performance Improvements" ∧
     (commitTypeFrom "docs").map CommitType.get_markdown_title = .ok "Documentation" ∧
     (commitTypeFrom "style").map CommitType.get_markdown_title = .ok "Style" ∧
     (commitTypeFrom "refactor").map CommitType.get_markdown_title = .ok "Refactoring" ∧
     (commitTypeFrom "test").map CommitType.get_markdown_title = .ok "Tests" ∧
     (commitTypeFrom "build").map CommitType.get_markdown_title = .ok "Build System" ∧
     (commitTypeFrom "ci").map CommitType.get_markdown_title = .ok "Continuous Integration") ∧
    ∀ key title, (CommitType.Custom key title).get_markdown_title = title :=
  ⟨⟨rfl, rfl, rfl, rfl, rfl, rfl, rfl, rfl, rfl, rfl, rfl⟩, fun _ _ => rfl⟩

/-- C8 counterexample: two distinct commits with equal scopes but
different commit types (`Feature` vs `BugFix`) compare `Equal` — the
comparison never consults the type, refuting "when the scopes are equal
it compares their commit types". -/
theorem cmp_equal_scopes_ignores_type :
    Commit.cmp ⟨"s1", .Feature, some "db", "d1", "a1"⟩
        ⟨"s2", .BugFix, some "db", "d2", "a2"⟩ = .eq ∧
      CommitType.Feature ≠ CommitType.BugFix ∧
      (⟨"s1", .Feature, some "db", "d1", "a1"⟩ : Commit) ≠
        ⟨"s2", .BugFix, some "db", "d2", "a2"⟩ :=
  ⟨rfl, by decide, by decide⟩

/-- C8 (amended): the `Ord` comparison of two commits is by scope only:
whenever the scopes are equal the result is `Equal`, whatever the commit
types (or any other fields) are. -/
theorem cmp_is_scope_only (c1 c2 : Commit) (h : c1.scope = c2.scope) :
    Commit.cmp c1 c2 = .eq := by
  unfold Commit.cmp
  rw [h]
  exact optScopeCmp_self c2.scope

/-- C8 witness: the amended theorem applied to two concrete commits with
equal scopes and different types. -/
theorem cmp_is_scope_only_witness :
    Commit.cmp ⟨"w1", .Feature, some "core", "d", "a"⟩
      ⟨"w2", .Chore, some "core", "e", "b"⟩ = .eq :=
  cmp_is_scope_only ⟨"w1", .Feature, some "core", "d", "a"⟩
    ⟨"w2", .Chore, some "core", "e", "b"⟩ rfl

/-- C9: the `verify` subcommand of `cog` exits with code 1 and prints
the parse error when verification of the message fails, and exits with
code 0 (printing nothing) when the message conforms. -/
theorem verify_exit_codes (m : String) :
    (verify m = .ok () → verifyRun m = (0, none)) ∧
    ∀ e, verify m = .error e → verifyRun m = (1, some e) := by
  constructor
  · intro h; simp [verifyRun, h]
  · intro e h; simp [verifyRun, h]

/-- C9 witness: the theorem applied at a conforming message and at
"update stuff", which has no ": " separator. -/
theorem verify_exit_codes_witness :
    verifyRun "feat: add something" = (0, none) ∧
      verifyRun "update stuff" = (1, some .MalformedHeader) :=
  ⟨(verify_exit_codes "feat: add something").1 rfl,
   (verify_exit_codes "update stuff").2 .MalformedHeader rfl⟩

/-- C10 counterexample: the header "feat(: x" has a "(" in its prefix,
but parsing does not yield `Ok` with a truncated scope — the scope
segment between the "(" and the ": " is empty, so the
`scope[0..scope.len() - 1]` slice underflows and the process aborts. -/
theorem scope_empty_segment_aborts :
    Commit.from_git_commit "s" "a" "feat(: x" = .error .sliceUnderflow := rfl

/-- C10 (amended): whenever the header prefix splits on "(" into a
recognized type key followed by a non-empty segment, the parser
unconditionally removes exactly the segment's last character to form the
scope — with no check that the removed character is ")" — so a header
missing its closing parenthesis still parses to `Ok` with a silently
truncated scope; an empty segment instead aborts with the slice
underflow. -/
theorem scope_is_truncated_segment (sh au m header descRaw t sc : String)
    (rest scRest : List String) (ct : CommitType)
    (hs : splitOnStr ": " m = header :: descRaw :: rest)
    (hl : splitOnStr "(" header = t :: sc :: scRest)
    (hct : commitTypeFrom t = .ok ct)
    (hne : sc ≠ "") :
    Commit.from_git_commit sh au m =
      .ok ⟨sh, ct, some (strDropLast sc), removeNewlines descRaw, au⟩ := by
  unfold Commit.from_git_commit
  rw [hs]
  dsimp only
  rw [hl]
  simp only [List.headD_cons, hct, List.getElem?_cons_succ,
    List.getElem?_cons_zero]
  rw [if_neg]
  intro hlen
  apply hne
  have hdata : sc.data = [] := List.length_eq_zero.mp hlen
  cases sc with
  | mk data => cases hdata; rfl

/-- C10 witness: the amended theorem applied at "feat(db: x", whose
prefix has no closing parenthesis: the parse succeeds and the scope is
`Some "d"` — the segment "db" with its last character silently
removed. -/
theorem scope_is_truncated_segment_witness :
    Commit.from_git_commit "w" "b" "feat(db: x" =
      .ok ⟨"w", .Feature, some "d", "x", "b"⟩ := by
  have h := scope_is_truncated_segment "w" "b" "feat(db: x" "feat(db" "x"
    "feat" "db" [] [] .Feature rfl rfl rfl (by decide)
  simpa using h
